import Mathlib

/-!
Shallow embedding of the wimpy music-service client
(`src/lib/wimpy/wimpy.py`): JSON values with Python dict semantics,
the response normalizers, `Session._map_request` dispatch, `search`,
`login`, and the `Favorites` add/remove methods, together with proofs
of the specification's claims about them.
-/

namespace Wimpy

/-- A decoded JSON value, as Python's `json` module produces it:
`null` doubles as Python `None`. -/
inductive JValue where
  | null
  | bool (b : Bool)
  | num (n : Int)
  | str (s : String)
  | arr (xs : List JValue)
  | obj (fields : List (String × JValue))
deriving Repr

/-- Python exceptions that the embedded code can raise. -/
inductive PyErr where
  | keyError (k : String)
  | typeError (msg : String)
  | valueError (msg : String)
  | notImplementedError
  | httpError (status : Nat)
deriving Repr, DecidableEq

namespace JValue

/-- First binding of a key in an object's field list (objects decoded
from JSON have no duplicate keys). -/
def lookupField : List (String × JValue) → String → Option JValue
  | [], _ => none
  | (k, v) :: fs, key => if k = key then some v else lookupField fs key

/-- Python `d[k]` for a string key: `KeyError` on a dict without the key,
`TypeError` on a non-dict. -/
def pyIndex (j : JValue) (k : String) : Except PyErr JValue :=
  match j with
  | .obj fs =>
    match lookupField fs k with
    | some v => Except.ok v
    | none => Except.error (PyErr.keyError k)
  | _ => Except.error (PyErr.typeError "value is not subscriptable by a string key")

/-- Python `d.get(k)`: `None` (here `.null`) when the key is absent;
`AttributeError`-like failure on a non-dict. -/
def pyGet (j : JValue) (k : String) : Except PyErr JValue :=
  match j with
  | .obj fs => Except.ok ((lookupField fs k).getD JValue.null)
  | _ => Except.error (PyErr.typeError "value has no attribute get")

/-- Substring test on character lists (Python `sub in s` for strings). -/
def charsInfix (needle : List Char) : List Char → Bool
  | [] => needle.isEmpty
  | c :: t => needle.isPrefixOf (c :: t) || charsInfix needle t

/-- Python `k in j` for a string `k`: key membership for dicts, element
membership for lists, substring test for strings, `TypeError` otherwise. -/
def pyContains (j : JValue) (k : String) : Except PyErr Bool :=
  match j with
  | .obj fs => Except.ok (fs.any (fun p => p.1 = k))
  | .arr xs =>
    Except.ok (xs.any (fun x => match x with | .str s => s = k | _ => false))
  | .str s => Except.ok (charsInfix k.data s.data)
  | _ => Except.error (PyErr.typeError "argument is not iterable")

/-- Pure key-presence test on dicts (used in claim statements). -/
def hasKey (j : JValue) (k : String) : Bool :=
  match j with
  | .obj fs => fs.any (fun p => p.1 = k)
  | _ => false

/-- Python truthiness `bool(x)`. -/
def pyTruthy : JValue → Bool
  | .null => false
  | .bool b => b
  | .num n => n ≠ 0
  | .str s => s ≠ ""
  | .arr xs => !xs.isEmpty
  | .obj fs => !fs.isEmpty

/-- Python `int(x)` coercion. -/
def pyInt : JValue → Except PyErr Int
  | .num n => Except.ok n
  | .bool b => Except.ok (if b then 1 else 0)
  | .str s =>
    match s.trim.toInt? with
    | some n => Except.ok n
    | none => Except.error (PyErr.valueError "invalid literal for int")
  | _ => Except.error (PyErr.typeError "int argument must be a string or a number")

/-- Python `x is None`. -/
def isNull : JValue → Bool
  | .null => true
  | _ => false

/-- Whether a value is a JSON object (a Python dict). -/
def isObj : JValue → Bool
  | .obj _ => true
  | _ => false

/-- Treat a value as a Python list (for `len`, indexing and `filter`). -/
def asList : JValue → Except PyErr (List JValue)
  | .arr xs => Except.ok xs
  | _ => Except.error (PyErr.typeError "value is not a list")

end JValue

/-- Python `s.startswith(p)`. -/
def pyStartswith (s p : String) : Bool :=
  p.data.isPrefixOf s.data

/-- Modelled from the spec: `Artist` from the missing `models.py` — a plain
immutable value record with id and name (spec §3, §4.1). -/
structure Artist where
  id : JValue
  name : JValue
deriving Repr

/-- Modelled from the spec: `Album` from the missing `models.py` — id, name,
optional num_tracks/duration (absent fields hold `None`), embedded owning
Artist (spec §3, §4.1). -/
structure Album where
  id : JValue
  name : JValue
  num_tracks : JValue
  duration : JValue
  artist : Artist
deriving Repr

/-- Modelled from the spec: `Track` from the missing `models.py` — plain
value record with embedded owning Artist and Album (spec §3, §4.1). -/
structure Track where
  id : JValue
  name : JValue
  duration : JValue
  track_num : JValue
  disc_num : JValue
  popularity : JValue
  artist : Artist
  album : Album
  available : Bool
deriving Repr

/-- Modelled from the spec: `Playlist` from the missing `models.py` — the
featured-playlist variant leaves num_tracks/duration/is_public unset
(spec §3, §4.2). -/
structure Playlist where
  id : JValue
  name : JValue
  description : JValue
  num_tracks : Option Int
  duration : Option Int
  is_public : Option JValue
deriving Repr

/-- `_parse_artist` (wimpy.py lines 209-210). -/
def parse_artist (json_obj : JValue) : Except PyErr Artist :=
  match json_obj.pyIndex "id" with
  | Except.error e => Except.error e
  | Except.ok i =>
    match json_obj.pyIndex "name" with
    | Except.error e => Except.error e
    | Except.ok n => Except.ok { id := i, name := n }

/-- `_parse_album` (wimpy.py lines 213-223): when `artist` is not supplied
it is parsed from `json_obj['artist']`; the album name comes from `title`;
`numberOfTracks` and `duration` are read with `.get` (None when absent). -/
def parse_album (json_obj : JValue) (artist : Option Artist) : Except PyErr Album :=
  match (match artist with
         | some a => Except.ok a
         | none =>
           match json_obj.pyIndex "artist" with
           | Except.error e => Except.error e
           | Except.ok aj => parse_artist aj) with
  | Except.error e => Except.error e
  | Except.ok a =>
    match json_obj.pyIndex "id" with
    | Except.error e => Except.error e
    | Except.ok i =>
      match json_obj.pyIndex "title" with
      | Except.error e => Except.error e
      | Except.ok t =>
        match json_obj.pyGet "numberOfTracks" with
        | Except.error e => Except.error e
        | Except.ok nt =>
          match json_obj.pyGet "duration" with
          | Except.error e => Except.error e
          | Except.ok d =>
            Except.ok { id := i, name := t, num_tracks := nt, duration := d, artist := a }

/-- `_parse_featured_playlist` (wimpy.py lines 226-232). -/
def parse_featured_playlist (json_obj : JValue) : Except PyErr Playlist :=
  match json_obj.pyIndex "artifactId" with
  | Except.error e => Except.error e
  | Except.ok i =>
    match json_obj.pyIndex "header" with
    | Except.error e => Except.error e
    | Except.ok h =>
      match json_obj.pyIndex "text" with
      | Except.error e => Except.error e
      | Except.ok t =>
        Except.ok
          { id := i, name := h, description := t,
            num_tracks := none, duration := none, is_public := none }

/-- `_parse_playlist` (wimpy.py lines 235-245). -/
def parse_playlist (json_obj : JValue) : Except PyErr Playlist :=
  match json_obj.pyIndex "uuid" with
  | Except.error e => Except.error e
  | Except.ok i =>
    match json_obj.pyIndex "title" with
    | Except.error e => Except.error e
    | Except.ok t =>
      match json_obj.pyIndex "description" with
      | Except.error e => Except.error e
      | Except.ok d =>
        match (match json_obj.pyIndex "numberOfTracks" with
               | Except.error e => Except.error e
               | Except.ok v => v.pyInt) with
        | Except.error e => Except.error e
        | Except.ok nt =>
          match (match json_obj.pyIndex "duration" with
                 | Except.error e => Except.error e
                 | Except.ok v => v.pyInt) with
          | Except.error e => Except.error e
          | Except.ok du =>
            match json_obj.pyIndex "publicPlaylist" with
            | Except.error e => Except.error e
            | Except.ok pp =>
              Except.ok
                { id := i, name := t, description := d,
                  num_tracks := some nt, duration := some du, is_public := some pp }

/-- `_parse_track` (wimpy.py lines 248-262): the artist is parsed once from
`json_obj['artist']` and passed down to the album parse; `available` is
`bool(json_obj['streamReady'])`. -/
def parse_track (json_obj : JValue) : Except PyErr Track :=
  match json_obj.pyIndex "artist" with
  | Except.error e => Except.error e
  | Except.ok aj =>
    match parse_artist aj with
    | Except.error e => Except.error e
    | Except.ok artist =>
      match json_obj.pyIndex "album" with
      | Except.error e => Except.error e
      | Except.ok bj =>
        match parse_album bj (some artist) with
        | Except.error e => Except.error e
        | Except.ok album =>
          match json_obj.pyIndex "id" with
          | Except.error e => Except.error e
          | Except.ok i =>
            match json_obj.pyIndex "title" with
            | Except.error e => Except.error e
            | Except.ok t =>
              match json_obj.pyIndex "duration" with
              | Except.error e => Except.error e
              | Except.ok du =>
                match json_obj.pyIndex "trackNumber" with
                | Except.error e => Except.error e
                | Except.ok tn =>
                  match json_obj.pyIndex "volumeNumber" with
                  | Except.error e => Except.error e
                  | Except.ok vn =>
                    match json_obj.pyIndex "popularity" with
                    | Except.error e => Except.error e
                    | Except.ok pop =>
                      match json_obj.pyIndex "streamReady" with
                      | Except.error e => Except.error e
                      | Except.ok sr =>
                        Except.ok
                          { id := i, name := t, duration := du,
                            track_num := tn, disc_num := vn, popularity := pop,
                            artist := artist, album := album,
                            available := sr.pyTruthy }

/-- A normalized domain model, the possible results of a normalizer. -/
inductive Model where
  | artist (a : Artist)
  | album (a : Album)
  | track (t : Track)
  | playlist (p : Playlist)
deriving Repr

/-- `_parse_artist` wrapped into the common normalizer result type. -/
def parseArtistM (j : JValue) : Except PyErr Model :=
  match parse_artist j with
  | Except.error e => Except.error e
  | Except.ok a => Except.ok (Model.artist a)

/-- `_parse_album` (with its default `artist=None`) wrapped into the common
normalizer result type. -/
def parseAlbumM (j : JValue) : Except PyErr Model :=
  match parse_album j none with
  | Except.error e => Except.error e
  | Except.ok a => Except.ok (Model.album a)

/-- `_parse_track` wrapped into the common normalizer result type. -/
def parseTrackM (j : JValue) : Except PyErr Model :=
  match parse_track j with
  | Except.error e => Except.error e
  | Except.ok t => Except.ok (Model.track t)

/-- `_parse_playlist` wrapped into the common normalizer result type. -/
def parsePlaylistM (j : JValue) : Except PyErr Model :=
  match parse_playlist j with
  | Except.error e => Except.error e
  | Except.ok p => Except.ok (Model.playlist p)

/-- `_parse_featured_playlist` wrapped into the common normalizer result type. -/
def parseFeaturedPlaylistM (j : JValue) : Except PyErr Model :=
  match parse_featured_playlist j with
  | Except.error e => Except.error e
  | Except.ok p => Except.ok (Model.playlist p)

/-- The normalizer-selection chain of `_map_request` (wimpy.py lines
165-177): `parse` stays `None` when no prefix matches, and a `ret`
starting with `user` raises `NotImplementedError`. -/
def selectParse (ret : String) : Except PyErr (Option (JValue → Except PyErr Model)) :=
  if pyStartswith ret "artist" then Except.ok (some parseArtistM)
  else if pyStartswith ret "album" then Except.ok (some parseAlbumM)
  else if pyStartswith ret "track" then Except.ok (some parseTrackM)
  else if pyStartswith ret "user" then Except.error PyErr.notImplementedError
  else if pyStartswith ret "playlist" then Except.ok (some parsePlaylistM)
  else if pyStartswith ret "featured_playlist" then Except.ok (some parseFeaturedPlaylistM)
  else Except.ok none

/-- Calling the selected `parse`: calling `None` raises a `TypeError`. -/
def callParse (parse : Option (JValue → Except PyErr Model)) (j : JValue) :
    Except PyErr Model :=
  match parse with
  | some p => p j
  | none => Except.error (PyErr.typeError "NoneType object is not callable")

/-- The list comprehension `[item[\x27item\x27] for item in items]`
(wimpy.py line 186). -/
def unwrapItems : List JValue → Except PyErr (List JValue)
  | [] => Except.ok []
  | x :: xs =>
    match x.pyIndex "item" with
    | Except.error e => Except.error e
    | Except.ok v =>
      match unwrapItems xs with
      | Except.error e => Except.error e
      | Except.ok vs => Except.ok (v :: vs)

/-- `list(map(parse, items))` with the selected normalizer. -/
def parseList (parse : Option (JValue → Except PyErr Model)) :
    List JValue → Except PyErr (List Model)
  | [] => Except.ok []
  | x :: xs =>
    match callParse parse x with
    | Except.error e => Except.error e
    | Except.ok m =>
      match parseList parse xs with
      | Except.error e => Except.error e
      | Except.ok ms => Except.ok (m :: ms)

/-- `if _filter is not None and items is not None: items = filter(_filter, items)`
(wimpy.py lines 180-181; Python 2 `filter` on a list returns a list). -/
def applyFilter (fil : Option (JValue → Bool)) (items : JValue) :
    Except PyErr JValue :=
  match fil with
  | none => Except.ok items
  | some f =>
    if items.isNull then Except.ok items
    else
      match items.asList with
      | Except.error e => Except.error e
      | Except.ok xs => Except.ok (JValue.arr (xs.filter f))

/-- The items list after the optional filter predicate — the sequence the
claims about `_map_request` quantify over. -/
def postFilter (fil : Option (JValue → Bool)) (xs : List JValue) : List JValue :=
  match fil with
  | none => xs
  | some f => xs.filter f

/-- A single model or an ordered sequence: the two shapes `_map_request`
can return. -/
inductive MapResult where
  | single (m : Model)
  | many (ms : List Model)
deriving Repr

/-- The parsing stage of `Session._map_request` (wimpy.py lines 165-188),
applied to the decoded JSON body: select the normalizer by prefix, read
`items` with `.get`, optionally filter, then either normalize the whole
object (no `items`), or unwrap the `item` wrapper when the first element
carries it and map the normalizer over the sequence. -/
def map_request_json (json_obj : JValue) (ret : String)
    (fil : Option (JValue → Bool)) : Except PyErr MapResult :=
  match selectParse ret with
  | Except.error e => Except.error e
  | Except.ok parse =>
    match json_obj.pyGet "items" with
    | Except.error e => Except.error e
    | Except.ok items0 =>
      match applyFilter fil items0 with
      | Except.error e => Except.error e
      | Except.ok items =>
        if items.isNull then
          match callParse parse json_obj with
          | Except.error e => Except.error e
          | Except.ok m => Except.ok (MapResult.single m)
        else
          match items.asList with
          | Except.error e => Except.error e
          | Except.ok xs =>
            match xs with
            | [] =>
              match parseList parse [] with
              | Except.error e => Except.error e
              | Except.ok ms => Except.ok (MapResult.many ms)
            | x :: _ =>
              match x.pyContains "item" with
              | Except.error e => Except.error e
              | Except.ok b =>
                if b then
                  match unwrapItems xs with
                  | Except.error e => Except.error e
                  | Except.ok ys =>
                    match parseList parse ys with
                    | Except.error e => Except.error e
                    | Except.ok ms => Except.ok (MapResult.many ms)
                else
                  match parseList parse xs with
                  | Except.error e => Except.error e
                  | Except.ok ms => Except.ok (MapResult.many ms)

/-- An HTTP request as handed to the transport collaborator: method, path,
query parameters and form body. -/
structure HttpRequest where
  method : String
  path : String
  params : List (String × JValue)
  data : List (String × JValue)

/-- Modelled from the spec: the transport collaborator's response (the
`requests` library is external to the repository) — it exposes the status
and the JSON-decoded body (spec §6). -/
structure HttpResponse where
  status : Nat
  body : JValue

/-- Modelled from the spec: a 2xx status is a success (spec §7:
TransportError is any non-2xx HTTP response). -/
def statusOk (status : Nat) : Bool :=
  200 ≤ status && status < 300

/-- Modelled from the spec: `r.raise_for_status()` of the transport
collaborator — propagates an error exactly on a non-2xx response
(spec §4.3, §7). -/
def raiseForStatus (r : HttpResponse) : Except PyErr Unit :=
  if statusOk r.status then Except.ok () else Except.error (PyErr.httpError r.status)

/-- Modelled from the spec: the transport response's `.ok` success
indicator — true exactly on a 2xx response (spec §4.4: success = 2xx). -/
def responseOk (r : HttpResponse) : Bool :=
  statusOk r.status

/-- The mutable session state: `session_id`, `country_code` and the
logged-in user (wimpy.py lines 60-66; the user is modelled by its id). -/
structure SessionState where
  session_id : JValue
  country_code : JValue
  user : Option JValue
deriving Repr

/-- Python `dict` assignment `d[k] = v` on an association list. -/
def dictSet (d : List (String × JValue)) (k : String) (v : JValue) :
    List (String × JValue) :=
  if d.any (fun p => p.1 = k) then
    d.map (fun p => if p.1 = k then (k, v) else p)
  else d ++ [(k, v)]

/-- Python `d.update(new)`: each binding of `new` overwrites or extends `d`. -/
def dictUpdate (d new : List (String × JValue)) : List (String × JValue) :=
  new.foldl (fun acc p => dictSet acc p.1 p.2) d

/-- Key lookup in a parameter dict. -/
def dictLookup (d : List (String × JValue)) (k : String) : Option JValue :=
  JValue.lookupField d k

/-- The base query parameters `request` always injects
(wimpy.py lines 92-96). -/
def baseParams (st : SessionState) : List (String × JValue) :=
  [("sessionId", st.session_id),
   ("countryCode", st.country_code),
   ("limit", JValue.str "9999")]

/-- `Session.request` (wimpy.py lines 91-105): merge the caller's params
over the base params, send, and `raise_for_status`; the issued requests
are returned alongside so that claims about network calls are statable,
and the (unmutated) session state is threaded through. -/
def Session.request (st : SessionState) (transport : HttpRequest → HttpResponse)
    (method path : String) (params data : List (String × JValue)) :
    Except PyErr HttpResponse × List HttpRequest × SessionState :=
  let req : HttpRequest :=
    { method := method, path := path,
      params := dictUpdate (baseParams st) params, data := data }
  let r := transport req
  (match raiseForStatus r with
   | Except.error e => Except.error e
   | Except.ok _ => Except.ok r,
   [req], st)

/-- `Session._map_request` (wimpy.py lines 163-188): GET the path, then
run the parsing stage `map_request_json` on the decoded body. -/
def map_request (st : SessionState) (transport : HttpRequest → HttpResponse)
    (url : String) (params : List (String × JValue)) (ret : String)
    (fil : Option (JValue → Bool)) :
    Except PyErr MapResult × List HttpRequest × SessionState :=
  match Session.request st transport "GET" url params [] with
  | (Except.error e, log, st2) => (Except.error e, log, st2)
  | (Except.ok r, log, st2) => (map_request_json r.body ret fil, log, st2)

/-- Modelled from the spec: the `SearchResult` record from the missing
`models.py` — fields artists/albums/playlists/tracks, unset by default,
at most one populated by construction (spec §3). A field holds whatever
`_map_request` returned for it. -/
structure SearchResult where
  artists : Option MapResult
  albums : Option MapResult
  playlists : Option MapResult
  tracks : Option MapResult
deriving Repr

/-- `SearchResult(**\x7bret_type: result\x7d)`: build the record with the
single keyword argument `ret_type`; an unknown keyword is a `TypeError`. -/
def mkSearchResult (key : String) (r : MapResult) : Except PyErr SearchResult :=
  if key = "artists" then
    Except.ok { artists := some r, albums := none, playlists := none, tracks := none }
  else if key = "albums" then
    Except.ok { artists := none, albums := some r, playlists := none, tracks := none }
  else if key = "playlists" then
    Except.ok { artists := none, albums := none, playlists := some r, tracks := none }
  else if key = "tracks" then
    Except.ok { artists := none, albums := none, playlists := none, tracks := some r }
  else Except.error (PyErr.typeError "unexpected keyword argument")

/-- The names of the populated fields of a `SearchResult`, in field order. -/
def SearchResult.populatedFields (sr : SearchResult) : List String :=
  (if sr.artists.isSome then ["artists"] else []) ++
  (if sr.albums.isSome then ["albums"] else []) ++
  (if sr.playlists.isSome then ["playlists"] else []) ++
  (if sr.tracks.isSome then ["tracks"] else [])

/-- Field access on a `SearchResult` by field name. -/
def SearchResult.getField (sr : SearchResult) (k : String) : Option MapResult :=
  if k = "artists" then sr.artists
  else if k = "albums" then sr.albums
  else if k = "playlists" then sr.playlists
  else if k = "tracks" then sr.tracks
  else none

/-- An apostrophe, kept out of string literals. -/
def quoteChar : String := String.singleton (Char.ofNat 39)

/-- The query parameters `search` passes down (wimpy.py lines 196-199). -/
def searchParams (value : String) : List (String × JValue) :=
  [("query", JValue.str value), ("limit", JValue.num 50)]

/-- `Session.search` (wimpy.py lines 195-206): reject a field outside the
four allowed values with a `ValueError` before any request is issued;
otherwise GET `search/<field>s`, normalize to the plural result kind and
wrap the result into the matching `SearchResult` field. -/
def search (st : SessionState) (transport : HttpRequest → HttpResponse)
    (field value : String) :
    Except PyErr SearchResult × List HttpRequest × SessionState :=
  if field ∈ ["artist", "album", "playlist", "track"] then
    match map_request st transport ("search/" ++ field ++ "s") (searchParams value)
        (field ++ "s") none with
    | (Except.error e, log, st2) => (Except.error e, log, st2)
    | (Except.ok result, log, st2) => (mkSearchResult (field ++ "s") result, log, st2)
  else
    (Except.error (PyErr.valueError
      ("Unknown field " ++ quoteChar ++ field ++ quoteChar)), [], st)

/-- The single HTTP request a valid `search` call issues. -/
def searchRequest (st : SessionState) (field value : String) : HttpRequest :=
  { method := "GET", path := "search/" ++ field ++ "s",
    params := dictUpdate (baseParams st) (searchParams value), data := [] }

/-- `Session.login` (wimpy.py lines 68-81): POST the credentials, raise on
a transport error, then assign `session_id`, `country_code` and `user`
from the body, in that order, and return `True`. The state is threaded
explicitly; a raise leaves the assignments made so far in place. -/
def login (st : SessionState) (_username _password : String)
    (resp : HttpResponse) : Except PyErr Bool × SessionState :=
  match raiseForStatus resp with
  | Except.error e => (Except.error e, st)
  | Except.ok _ =>
    match resp.body.pyIndex "sessionId" with
    | Except.error e => (Except.error e, st)
    | Except.ok sid =>
      let st1 : SessionState := { st with session_id := sid }
      match resp.body.pyIndex "countryCode" with
      | Except.error e => (Except.error e, st1)
      | Except.ok cc =>
        let st2 : SessionState := { st1 with country_code := cc }
        match resp.body.pyIndex "userId" with
        | Except.error e => (Except.error e, st2)
        | Except.ok uid => (Except.ok true, { st2 with user := some uid })

/-- `Session.get_user` (wimpy.py lines 107-108). -/
def get_user (st : SessionState) (transport : HttpRequest → HttpResponse)
    (user_id : String) :
    Except PyErr MapResult × List HttpRequest × SessionState :=
  map_request st transport ("users/" ++ user_id) [] "user" none

/-- The favorites base path `users/<user_id>/favorites`
(wimpy.py line 269). -/
def favoritesBase (user_id : String) : String :=
  "users/" ++ user_id ++ "/favorites"

/-- `Favorites.add_artist` (wimpy.py lines 271-272): POST, then read `.ok`. -/
def Favorites.add_artist (st : SessionState) (transport : HttpRequest → HttpResponse)
    (user_id : String) (artist_id : JValue) :
    Except PyErr Bool × List HttpRequest × SessionState :=
  match Session.request st transport "POST" (favoritesBase user_id ++ "/artists")
      [] [("artistId", artist_id)] with
  | (Except.error e, log, st2) => (Except.error e, log, st2)
  | (Except.ok r, log, st2) => (Except.ok (responseOk r), log, st2)

/-- `Favorites.add_album` (wimpy.py lines 274-275). -/
def Favorites.add_album (st : SessionState) (transport : HttpRequest → HttpResponse)
    (user_id : String) (album_id : JValue) :
    Except PyErr Bool × List HttpRequest × SessionState :=
  match Session.request st transport "POST" (favoritesBase user_id ++ "/albums")
      [] [("albumId", album_id)] with
  | (Except.error e, log, st2) => (Except.error e, log, st2)
  | (Except.ok r, log, st2) => (Except.ok (responseOk r), log, st2)

/-- `Favorites.add_track` (wimpy.py lines 277-278). -/
def Favorites.add_track (st : SessionState) (transport : HttpRequest → HttpResponse)
    (user_id : String) (track_id : JValue) :
    Except PyErr Bool × List HttpRequest × SessionState :=
  match Session.request st transport "POST" (favoritesBase user_id ++ "/tracks")
      [] [("trackId", track_id)] with
  | (Except.error e, log, st2) => (Except.error e, log, st2)
  | (Except.ok r, log, st2) => (Except.ok (responseOk r), log, st2)

/-- `Favorites.remove_artist` (wimpy.py lines 280-281): DELETE, then `.ok`. -/
def Favorites.remove_artist (st : SessionState) (transport : HttpRequest → HttpResponse)
    (user_id : String) (artist_id : String) :
    Except PyErr Bool × List HttpRequest × SessionState :=
  match Session.request st transport "DELETE"
      (favoritesBase user_id ++ "/artists/" ++ artist_id) [] [] with
  | (Except.error e, log, st2) => (Except.error e, log, st2)
  | (Except.ok r, log, st2) => (Except.ok (responseOk r), log, st2)

/-- `Favorites.remove_album` (wimpy.py lines 283-284). -/
def Favorites.remove_album (st : SessionState) (transport : HttpRequest → HttpResponse)
    (user_id : String) (album_id : String) :
    Except PyErr Bool × List HttpRequest × SessionState :=
  match Session.request st transport "DELETE"
      (favoritesBase user_id ++ "/albums/" ++ album_id) [] [] with
  | (Except.error e, log, st2) => (Except.error e, log, st2)
  | (Except.ok r, log, st2) => (Except.ok (responseOk r), log, st2)

/-- `Favorites.remove_track` (wimpy.py lines 286-287). -/
def Favorites.remove_track (st : SessionState) (transport : HttpRequest → HttpResponse)
    (user_id : String) (track_id : String) :
    Except PyErr Bool × List HttpRequest × SessionState :=
  match Session.request st transport "DELETE"
      (favoritesBase user_id ++ "/tracks/" ++ track_id) [] [] with
  | (Except.error e, log, st2) => (Except.error e, log, st2)
  | (Except.ok r, log, st2) => (Except.ok (responseOk r), log, st2)

/-! ## Helper lemmas -/

theorem lookupField_eq_none_of_any_false (fs : List (String × JValue)) (k : String)
    (h : fs.any (fun p => p.1 = k) = false) : JValue.lookupField fs k = none := by
  induction fs with
  | nil => rfl
  | cons p rest ih =>
    simp only [List.any_cons, Bool.or_eq_false_iff, decide_eq_false_iff_not] at h
    simp only [JValue.lookupField, if_neg h.1]
    exact ih h.2

theorem pyGet_of_not_hasKey (fs : List (String × JValue)) (k : String)
    (h : (JValue.obj fs).hasKey k = false) :
    (JValue.obj fs).pyGet k = Except.ok JValue.null := by
  simp only [JValue.hasKey] at h
  simp [JValue.pyGet, lookupField_eq_none_of_any_false fs k h]

theorem parse_album_fields (j : JValue) (a : Artist) (alb : Album)
    (h : parse_album j (some a) = Except.ok alb) :
    ∃ i t nt d, j.pyIndex "id" = Except.ok i ∧
      j.pyIndex "title" = Except.ok t ∧
      j.pyGet "numberOfTracks" = Except.ok nt ∧
      j.pyGet "duration" = Except.ok d ∧
      alb = { id := i, name := t, num_tracks := nt, duration := d, artist := a } := by
  unfold parse_album at h
  repeat' split at h
  all_goals simp_all

theorem parse_album_artist (j : JValue) (a : Artist) (alb : Album)
    (h : parse_album j (some a) = Except.ok alb) : alb.artist = a := by
  obtain ⟨i, t, nt, d, _, _, _, _, rfl⟩ := parse_album_fields j a alb h
  rfl

/-! ## Claims -/

/-- C6: for every JSON object containing both `id` and `name` keys,
`_parse_artist` returns an Artist carrying exactly those values unchanged;
if `id` is absent it fails with `KeyError "id"`, and if `id` is present but
`name` absent it fails with `KeyError "name"` (a missing-field error). -/
theorem C6_parse_artist_exact (fs : List (String × JValue)) :
    (∀ i n, JValue.lookupField fs "id" = some i →
       JValue.lookupField fs "name" = some n →
       parse_artist (JValue.obj fs) = Except.ok { id := i, name := n }) ∧
    (JValue.lookupField fs "id" = none →
       parse_artist (JValue.obj fs) = Except.error (PyErr.keyError "id")) ∧
    (∀ i, JValue.lookupField fs "id" = some i →
       JValue.lookupField fs "name" = none →
       parse_artist (JValue.obj fs) = Except.error (PyErr.keyError "name")) := by
  refine ⟨fun i n h1 h2 => ?_, fun h1 => ?_, fun i h1 h2 => ?_⟩
  · simp [parse_artist, JValue.pyIndex, h1, h2]
  · simp [parse_artist, JValue.pyIndex, h1]
  · simp [parse_artist, JValue.pyIndex, h1, h2]

/-- C6 witness at concrete inputs. -/
theorem C6_parse_artist_exact_witness :
    parse_artist (JValue.obj [("id", JValue.num 7), ("name", JValue.str "Bowie")]) =
      Except.ok { id := JValue.num 7, name := JValue.str "Bowie" } ∧
    parse_artist (JValue.obj [("name", JValue.str "x")]) =
      Except.error (PyErr.keyError "id") ∧
    parse_artist (JValue.obj [("id", JValue.num 7)]) =
      Except.error (PyErr.keyError "name") :=
  ⟨(C6_parse_artist_exact _).1 _ _ rfl rfl,
   (C6_parse_artist_exact _).2.1 rfl,
   (C6_parse_artist_exact _).2.2 _ rfl rfl⟩

/-- C3: for every album JSON object with an `artist` sub-object,
`_parse_album` with no artist argument agrees with `_parse_album` given the
separately parsed artist; on success the album name is read from `title`,
and an absent `numberOfTracks` or `duration` key yields `None` (not zero). -/
theorem C3_parse_album_consistent (j aj : JValue) (a : Artist)
    (hart : j.pyIndex "artist" = Except.ok aj)
    (hpa : parse_artist aj = Except.ok a) :
    parse_album j none = parse_album j (some a) ∧
    (∀ alb, parse_album j none = Except.ok alb →
       (∃ t, j.pyIndex "title" = Except.ok t ∧ alb.name = t) ∧
       (j.hasKey "numberOfTracks" = false →
          alb.num_tracks = JValue.null ∧ alb.num_tracks ≠ JValue.num 0) ∧
       (j.hasKey "duration" = false →
          alb.duration = JValue.null ∧ alb.duration ≠ JValue.num 0)) := by
  have hagree : parse_album j none = parse_album j (some a) := by
    unfold parse_album
    simp [hart, hpa]
  refine ⟨hagree, fun alb halb => ?_⟩
  rw [hagree] at halb
  obtain ⟨fs, rfl⟩ : ∃ fs, j = JValue.obj fs := by
    cases j <;> simp [JValue.pyIndex] at hart
    exact ⟨_, rfl⟩
  obtain ⟨i, t, nt, d, hid, ht, hnt, hd, halbeq⟩ := parse_album_fields _ a alb halb
  subst halbeq
  refine ⟨⟨t, ht, rfl⟩, fun h => ?_, fun h => ?_⟩
  · have h0 := pyGet_of_not_hasKey fs "numberOfTracks" h
    rw [h0] at hnt
    cases hnt
    exact ⟨rfl, by simp⟩
  · have h0 := pyGet_of_not_hasKey fs "duration" h
    rw [h0] at hd
    cases hd
    exact ⟨rfl, by simp⟩

/-- C3 witness at a concrete album JSON without track-count or duration. -/
theorem C3_parse_album_consistent_witness :
    parse_album
      (JValue.obj [("id", JValue.num 3), ("title", JValue.str "Low"),
        ("artist", JValue.obj [("id", JValue.num 7), ("name", JValue.str "Bowie")])])
      none =
    parse_album
      (JValue.obj [("id", JValue.num 3), ("title", JValue.str "Low"),
        ("artist", JValue.obj [("id", JValue.num 7), ("name", JValue.str "Bowie")])])
      (some { id := JValue.num 7, name := JValue.str "Bowie" }) :=
  (C3_parse_album_consistent
    (JValue.obj [("id", JValue.num 3), ("title", JValue.str "Low"),
      ("artist", JValue.obj [("id", JValue.num 7), ("name", JValue.str "Bowie")])])
    (JValue.obj [("id", JValue.num 7), ("name", JValue.str "Bowie")])
    { id := JValue.num 7, name := JValue.str "Bowie" } rfl rfl).1

/-- C4: for every track JSON accepted by `_parse_track`, the artist embedded
in the returned album is the returned track's own artist (parsed once and
passed down), and `available` is the boolean coercion of `streamReady`. -/
theorem C4_parse_track_artist_shared (j : JValue) (t : Track)
    (h : parse_track j = Except.ok t) :
    t.album.artist = t.artist ∧
    (∀ sr, j.pyIndex "streamReady" = Except.ok sr → t.available = sr.pyTruthy) := by
  unfold parse_track at h
  repeat' split at h
  all_goals simp only [reduceCtorEq, Except.ok.injEq] at h
  subst h
  constructor
  · exact parse_album_artist _ _ _ (by assumption)
  · intro sr hsr
    simp_all

/-- C4 witness at a concrete track JSON. -/
theorem C4_parse_track_artist_shared_witness :
    (match parse_track
      (JValue.obj [("artist", JValue.obj [("id", JValue.num 7), ("name", JValue.str "Bowie")]),
        ("album", JValue.obj [("id", JValue.num 3), ("title", JValue.str "Low")]),
        ("id", JValue.num 1), ("title", JValue.str "Speed"),
        ("duration", JValue.num 160), ("trackNumber", JValue.num 2),
        ("volumeNumber", JValue.num 1), ("popularity", JValue.num 5),
        ("streamReady", JValue.bool true)]) with
     | Except.ok t => t.album.artist = t.artist ∧ t.available = true
     | Except.error _ => False) := by
  have h := C4_parse_track_artist_shared
    (JValue.obj [("artist", JValue.obj [("id", JValue.num 7), ("name", JValue.str "Bowie")]),
      ("album", JValue.obj [("id", JValue.num 3), ("title", JValue.str "Low")]),
      ("id", JValue.num 1), ("title", JValue.str "Speed"),
      ("duration", JValue.num 160), ("trackNumber", JValue.num 2),
      ("volumeNumber", JValue.num 1), ("popularity", JValue.num 5),
      ("streamReady", JValue.bool true)]) _ rfl
  exact ⟨h.1, h.2 (JValue.bool true) rfl⟩

/-- Two prefixes of the same character list are comparable. -/
theorem isPrefixOf_total (p q s : List Char) (hp : p.isPrefixOf s = true)
    (hq : q.isPrefixOf s = true) :
    p.isPrefixOf q = true ∨ q.isPrefixOf p = true := by
  induction s generalizing p q with
  | nil =>
    cases p <;> cases q <;> simp_all [List.isPrefixOf]
  | cons c t ih =>
    cases p with
    | nil => left; simp [List.isPrefixOf]
    | cons a as =>
      cases q with
      | nil => right; simp [List.isPrefixOf]
      | cons b bs =>
        simp only [List.isPrefixOf, Bool.and_eq_true, beq_iff_eq] at hp hq ⊢
        obtain ⟨rfl, hp2⟩ := hp
        obtain ⟨rfl, hq2⟩ := hq
        rcases ih as bs hp2 hq2 with h | h
        · exact Or.inl ⟨rfl, h⟩
        · exact Or.inr ⟨rfl, h⟩

/-- Incomparable needles cannot both be prefixes: if `s` starts with `p`
and neither of `p`, `q` is a prefix of the other, `s` does not start
with `q`. -/
theorem pyStartswith_false_of (s p q : String)
    (hpq : (p.data.isPrefixOf q.data || q.data.isPrefixOf p.data) = false)
    (hp : pyStartswith s p = true) : pyStartswith s q = false := by
  rw [Bool.or_eq_false_iff] at hpq
  by_contra hcon
  rw [Bool.not_eq_false] at hcon
  rcases isPrefixOf_total p.data q.data s.data hp hcon with h | h
  · rw [hpq.1] at h
    exact Bool.false_ne_true h
  · rw [hpq.2] at h
    exact Bool.false_ne_true h

/-- C7: a result kind whose prefix matches `user` always yields a
`NotImplementedError` from the parsing stage, whatever the payload, and
`get_user` never succeeds (it fails with `NotImplementedError` whenever the
transport does not itself fail); kinds prefix-matching `artist`, `album`,
`track`, `playlist` or `featured_playlist` select the corresponding
normalizer. -/
theorem C7_user_unsupported (ret : String) :
    (pyStartswith ret "user" = true →
       (∀ j fil, map_request_json j ret fil = Except.error PyErr.notImplementedError) ∧
       (∀ st transport uid,
          (get_user st transport uid).1 = Except.error PyErr.notImplementedError ∨
          ∃ n, statusOk n = false ∧
            (get_user st transport uid).1 = Except.error (PyErr.httpError n))) ∧
    (pyStartswith ret "artist" = true → selectParse ret = Except.ok (some parseArtistM)) ∧
    (pyStartswith ret "album" = true → selectParse ret = Except.ok (some parseAlbumM)) ∧
    (pyStartswith ret "track" = true → selectParse ret = Except.ok (some parseTrackM)) ∧
    (pyStartswith ret "playlist" = true → selectParse ret = Except.ok (some parsePlaylistM)) ∧
    (pyStartswith ret "featured_playlist" = true →
       selectParse ret = Except.ok (some parseFeaturedPlaylistM)) := by
  refine ⟨fun hu => ⟨fun j fil => ?_, fun st transport uid => ?_⟩,
    fun h => ?_, fun h => ?_, fun h => ?_, fun h => ?_, fun h => ?_⟩
  · have h1 := pyStartswith_false_of ret "user" "artist" (by decide) hu
    have h2 := pyStartswith_false_of ret "user" "album" (by decide) hu
    have h3 := pyStartswith_false_of ret "user" "track" (by decide) hu
    simp [map_request_json, selectParse, h1, h2, h3, hu]
  · have hsel : selectParse "user" = Except.error PyErr.notImplementedError := by
      simp [selectParse, pyStartswith, List.isPrefixOf]
    by_cases hok : statusOk (transport (HttpRequest.mk "GET" ("users/" ++ uid) (dictUpdate (baseParams st) []) [])).status = true
    · left
      simp [get_user, map_request, Session.request, raiseForStatus, hok,
        map_request_json, hsel]
    · right
      refine ⟨(transport (HttpRequest.mk "GET" ("users/" ++ uid) (dictUpdate (baseParams st) []) [])).status,
        by simpa using hok, ?_⟩
      simp [get_user, map_request, Session.request, raiseForStatus, hok]
  · simp [selectParse, h]
  · have h1 := pyStartswith_false_of ret "album" "artist" (by decide) h
    simp [selectParse, h, h1]
  · have h1 := pyStartswith_false_of ret "track" "artist" (by decide) h
    have h2 := pyStartswith_false_of ret "track" "album" (by decide) h
    simp [selectParse, h, h1, h2]
  · have h1 := pyStartswith_false_of ret "playlist" "artist" (by decide) h
    have h2 := pyStartswith_false_of ret "playlist" "album" (by decide) h
    have h3 := pyStartswith_false_of ret "playlist" "track" (by decide) h
    have h4 := pyStartswith_false_of ret "playlist" "user" (by decide) h
    simp [selectParse, h, h1, h2, h3, h4]
  · have h1 := pyStartswith_false_of ret "featured_playlist" "artist" (by decide) h
    have h2 := pyStartswith_false_of ret "featured_playlist" "album" (by decide) h
    have h3 := pyStartswith_false_of ret "featured_playlist" "track" (by decide) h
    have h4 := pyStartswith_false_of ret "featured_playlist" "user" (by decide) h
    have h5 := pyStartswith_false_of ret "featured_playlist" "playlist" (by decide) h
    simp [selectParse, h, h1, h2, h3, h4, h5]

/-- C7 witness: `get_user` with kind `user` fails with `NotImplementedError`
on a successful transport, and the parsing stage does so on any payload. -/
theorem C7_user_unsupported_witness :
    map_request_json (JValue.obj [("id", JValue.num 1)]) "user" none =
      Except.error PyErr.notImplementedError ∧
    (get_user { session_id := JValue.str "S", country_code := JValue.str "NO", user := none }
      (fun _ => { status := 200, body := JValue.obj [("id", JValue.num 1)] }) "42").1 =
      Except.error PyErr.notImplementedError := by
  have h := (C7_user_unsupported "user").1 (by decide)
  exact ⟨h.1 _ none, rfl⟩

/-- C2: `search` with a field outside `{artist, album, playlist, track}`
fails with a `ValueError` (the InvalidArgument error), issues no network
request, and returns the session state unchanged. -/
theorem C2_search_invalid_field (st : SessionState)
    (transport : HttpRequest → HttpResponse) (field value : String)
    (h : field ∉ ["artist", "album", "playlist", "track"]) :
    search st transport field value =
      (Except.error (PyErr.valueError
        ("Unknown field " ++ quoteChar ++ field ++ quoteChar)), [], st) := by
  simp [search, h]

/-- C2 witness: the spec scenario `search("invalid", "x")`. -/
theorem C2_search_invalid_field_witness :
    search { session_id := JValue.str "abc", country_code := JValue.str "NO", user := none }
      (fun _ => { status := 200, body := JValue.null }) "invalid" "x" =
      (Except.error (PyErr.valueError
        ("Unknown field " ++ quoteChar ++ "invalid" ++ quoteChar)), [],
       { session_id := JValue.str "abc", country_code := JValue.str "NO", user := none }) :=
  C2_search_invalid_field _ _ "invalid" "x" (by decide)

/-- A `Session.request` call that returns a response normally has passed
`raise_for_status`, so that response is a 2xx success. -/
theorem request_ok (st : SessionState) (transport : HttpRequest → HttpResponse)
    (method path : String) (params data : List (String × JValue))
    (r : HttpResponse) (log : List HttpRequest) (st2 : SessionState)
    (h : Session.request st transport method path params data = (Except.ok r, log, st2)) :
    responseOk r = true := by
  unfold Session.request at h
  simp only [Prod.mk.injEq] at h
  obtain ⟨h1, -, -⟩ := h
  split at h1
  · exact absurd h1 (by simp)
  · injection h1 with h1
    subst h1
    rename_i heq
    unfold raiseForStatus at heq
    split at heq
    · unfold responseOk
      assumption
    · exact absurd heq (by simp)

/-- C9: every Favorites add/remove call that returns normally returns
`True`: a failing response raises inside `Session.request` before `.ok`
is read, so these methods can never return `False`. -/
theorem C9_favorites_never_false (st : SessionState)
    (transport : HttpRequest → HttpResponse) (user_id : String)
    (xid : JValue) (sid : String) :
    (∀ b, (Favorites.add_artist st transport user_id xid).1 = Except.ok b → b = true) ∧
    (∀ b, (Favorites.add_album st transport user_id xid).1 = Except.ok b → b = true) ∧
    (∀ b, (Favorites.add_track st transport user_id xid).1 = Except.ok b → b = true) ∧
    (∀ b, (Favorites.remove_artist st transport user_id sid).1 = Except.ok b → b = true) ∧
    (∀ b, (Favorites.remove_album st transport user_id sid).1 = Except.ok b → b = true) ∧
    (∀ b, (Favorites.remove_track st transport user_id sid).1 = Except.ok b → b = true) := by
  refine ⟨fun b h => ?_, fun b h => ?_, fun b h => ?_,
    fun b h => ?_, fun b h => ?_, fun b h => ?_⟩ <;>
  · simp only [Favorites.add_artist, Favorites.add_album, Favorites.add_track,
      Favorites.remove_artist, Favorites.remove_album, Favorites.remove_track] at h
    split at h
    · exact absurd h (by simp)
    · rename_i r log st2 heq
      injection h with h
      rw [← h]
      exact request_ok _ _ _ _ _ _ _ _ _ heq

/-- C9 witness: a 2xx transport makes each method return `True`. -/
theorem C9_favorites_never_false_witness :
    (Favorites.add_artist
      { session_id := JValue.str "S", country_code := JValue.str "NO", user := none }
      (fun _ => { status := 200, body := JValue.null }) "42" (JValue.num 7)).1 =
      Except.ok true := by
  have h := (C9_favorites_never_false
    { session_id := JValue.str "S", country_code := JValue.str "NO", user := none }
    (fun _ => { status := 200, body := JValue.null }) "42" (JValue.num 7) "7").1
  exact (h true rfl) ▸ rfl

/-- C8: `login` is atomic on failure — a non-2xx response raises the
transport error and leaves `session_id`, `country_code` and `user` exactly
as they were; on a 2xx response carrying the three expected keys, all three
are updated from the body and `True` is returned. -/
theorem C8_login_atomic (st : SessionState) (u p : String) (resp : HttpResponse) :
    (statusOk resp.status = false →
       login st u p resp = (Except.error (PyErr.httpError resp.status), st)) ∧
    (∀ sid cc uid, statusOk resp.status = true →
       resp.body.pyIndex "sessionId" = Except.ok sid →
       resp.body.pyIndex "countryCode" = Except.ok cc →
       resp.body.pyIndex "userId" = Except.ok uid →
       login st u p resp =
         (Except.ok true,
          { session_id := sid, country_code := cc, user := some uid })) := by
  constructor
  · intro h
    simp [login, raiseForStatus, h]
  · intro sid cc uid h h1 h2 h3
    simp [login, raiseForStatus, h, h1, h2, h3]

/-- C8 witness: the spec login scenario, plus a 404 that leaves the state
untouched. -/
theorem C8_login_atomic_witness :
    login { session_id := JValue.null, country_code := JValue.str "NO", user := none }
      "bob" "pw" { status := 404, body := JValue.null } =
      (Except.error (PyErr.httpError 404),
       { session_id := JValue.null, country_code := JValue.str "NO", user := none }) ∧
    login { session_id := JValue.null, country_code := JValue.str "NO", user := none }
      "bob" "pw"
      { status := 200,
        body := JValue.obj [("sessionId", JValue.str "S1"),
          ("countryCode", JValue.str "US"), ("userId", JValue.num 7)] } =
      (Except.ok true,
       { session_id := JValue.str "S1", country_code := JValue.str "US",
         user := some (JValue.num 7) }) :=
  ⟨(C8_login_atomic _ "bob" "pw" _).1 (by decide),
   (C8_login_atomic _ "bob" "pw" _).2 _ _ _ (by decide) rfl rfl rfl⟩

/-- `_map_request` issues exactly one GET request, built from the base
parameters merged with the caller's, and never mutates the session state. -/
theorem map_request_log_state (st : SessionState)
    (transport : HttpRequest → HttpResponse) (url : String)
    (params : List (String × JValue)) (ret : String)
    (fil : Option (JValue → Bool)) :
    (map_request st transport url params ret fil).2.1 =
      [HttpRequest.mk "GET" url (dictUpdate (baseParams st) params) []] ∧
    (map_request st transport url params ret fil).2.2 = st := by
  unfold map_request Session.request
  constructor <;>
  · split <;>
    · rename_i heq
      simp only [Prod.mk.injEq] at heq
      obtain ⟨-, h2, h3⟩ := heq
      subst h2
      subst h3
      rfl

/-- On a successful transport response, `_map_request` returns the parsing
stage applied to the response body. -/
theorem map_request_ok_first (st : SessionState)
    (transport : HttpRequest → HttpResponse) (url : String)
    (params : List (String × JValue)) (ret : String)
    (fil : Option (JValue → Bool))
    (hok : statusOk (transport
      (HttpRequest.mk "GET" url (dictUpdate (baseParams st) params) [])).status = true) :
    (map_request st transport url params ret fil).1 =
      map_request_json (transport
        (HttpRequest.mk "GET" url (dictUpdate (baseParams st) params) [])).body ret fil := by
  unfold map_request Session.request
  simp [raiseForStatus, hok]

/-- `SearchResult(**\x7bkey: r\x7d)` with a recognized keyword populates
exactly that field, and only it. -/
theorem mkSearchResult_shape (key : String)
    (hkey : key ∈ ["artists", "albums", "playlists", "tracks"])
    (r : MapResult) (sr : SearchResult) (h : mkSearchResult key r = Except.ok sr) :
    sr.populatedFields = [key] ∧ sr.getField key = some r := by
  fin_cases hkey <;>
  · simp [mkSearchResult] at h
    subst h
    simp [SearchResult.populatedFields, SearchResult.getField]

/-- `SearchResult(**\x7bkey: r\x7d)` with a recognized keyword succeeds. -/
theorem mkSearchResult_exists (key : String)
    (hkey : key ∈ ["artists", "albums", "playlists", "tracks"])
    (r : MapResult) : ∃ sr, mkSearchResult key r = Except.ok sr := by
  fin_cases hkey <;> exact ⟨_, rfl⟩

/-- C5: a valid `search` issues exactly one GET to `search/<field>s` with
page size 50, and on success returns a `SearchResult` whose only populated
field is the plural of the requested field, holding `_map_request`'s
normalized sequence. -/
theorem C5_search_shape (st : SessionState)
    (transport : HttpRequest → HttpResponse) (field value : String)
    (h : field ∈ ["artist", "album", "playlist", "track"]) :
    ((search st transport field value).2.1 = [searchRequest st field value] ∧
     (searchRequest st field value).method = "GET" ∧
     (searchRequest st field value).path = "search/" ++ field ++ "s" ∧
     dictLookup (searchRequest st field value).params "limit" = some (JValue.num 50) ∧
     dictLookup (searchRequest st field value).params "query" = some (JValue.str value)) ∧
    (∀ sr, (search st transport field value).1 = Except.ok sr →
       sr.populatedFields = [field ++ "s"]) ∧
    (∀ ms, statusOk (transport (searchRequest st field value)).status = true →
       map_request_json (transport (searchRequest st field value)).body
         (field ++ "s") none = Except.ok (MapResult.many ms) →
       ∃ sr, (search st transport field value).1 = Except.ok sr ∧
         sr.getField (field ++ "s") = some (MapResult.many ms)) := by
  have hplural : field ++ "s" ∈ ["artists", "albums", "playlists", "tracks"] := by
    fin_cases h <;> simp
  refine ⟨⟨?_, rfl, rfl, ?_, ?_⟩, fun sr hsr => ?_, fun ms hok hmr => ?_⟩
  · unfold search
    rw [if_pos h]
    split
    all_goals
      rename_i heq
      have hlog := congrArg (fun t => t.2.1) heq
      simp only [] at hlog
      rw [(map_request_log_state _ _ _ _ _ _).1] at hlog
      exact hlog.symm
  · simp [searchRequest, dictUpdate, dictSet, baseParams, searchParams,
      dictLookup, JValue.lookupField]
  · simp [searchRequest, dictUpdate, dictSet, baseParams, searchParams,
      dictLookup, JValue.lookupField]
  · unfold search at hsr
    rw [if_pos h] at hsr
    split at hsr
    · exact absurd hsr (by simp)
    · rename_i result log st2 heq
      exact (mkSearchResult_shape _ hplural _ _ hsr).1
  · simp only [searchRequest] at hok hmr
    have h1 := map_request_ok_first st transport ("search/" ++ field ++ "s")
      (searchParams value) (field ++ "s") none hok
    rw [hmr] at h1
    unfold search
    rw [if_pos h]
    split
    · rename_i e log st2 heq
      have h2 := congrArg (fun t => t.1) heq
      simp only [] at h2
      rw [h1] at h2
      exact absurd h2 (by simp)
    · rename_i result log st2 heq
      have h2 := congrArg (fun t => t.1) heq
      simp only [] at h2
      rw [h1] at h2
      injection h2 with h2
      subst h2
      obtain ⟨sr, hmk⟩ := mkSearchResult_exists (field ++ "s") hplural (MapResult.many ms)
      exact ⟨sr, hmk, (mkSearchResult_shape _ hplural _ _ hmk).2⟩

/-- C5 witness: the spec scenario — searching tracks against a transport
returning one track under `items` yields a `SearchResult` whose only
populated field is `tracks`. -/
theorem C5_search_shape_witness :
    (match (search { session_id := JValue.str "S", country_code := JValue.str "NO", user := none }
        (fun _ => { status := 200, body := JValue.obj [("items", JValue.arr
          [JValue.obj [("artist", JValue.obj [("id", JValue.num 7), ("name", JValue.str "Bowie")]),
            ("album", JValue.obj [("id", JValue.num 3), ("title", JValue.str "Low")]),
            ("id", JValue.num 1), ("title", JValue.str "Speed"),
            ("duration", JValue.num 160), ("trackNumber", JValue.num 2),
            ("volumeNumber", JValue.num 1), ("popularity", JValue.num 5),
            ("streamReady", JValue.bool true)]])] }) "track" "foo").1 with
     | Except.ok sr => sr.populatedFields = ["tracks"]
     | Except.error _ => False) := by
  have h := (C5_search_shape
    { session_id := JValue.str "S", country_code := JValue.str "NO", user := none }
    (fun _ => { status := 200, body := JValue.obj [("items", JValue.arr
      [JValue.obj [("artist", JValue.obj [("id", JValue.num 7), ("name", JValue.str "Bowie")]),
        ("album", JValue.obj [("id", JValue.num 3), ("title", JValue.str "Low")]),
        ("id", JValue.num 1), ("title", JValue.str "Speed"),
        ("duration", JValue.num 160), ("trackNumber", JValue.num 2),
        ("volumeNumber", JValue.num 1), ("popularity", JValue.num 5),
        ("streamReady", JValue.bool true)]])] }) "track" "foo" (by decide)).2.1
  exact h _ rfl

theorem applyFilter_null (fil : Option (JValue → Bool)) :
    applyFilter fil JValue.null = Except.ok JValue.null := by
  cases fil <;> simp [applyFilter, JValue.isNull]

theorem applyFilter_arr (fil : Option (JValue → Bool)) (xs : List JValue) :
    applyFilter fil (JValue.arr xs) = Except.ok (JValue.arr (postFilter fil xs)) := by
  cases fil <;> simp [applyFilter, postFilter, JValue.isNull, JValue.asList]

theorem any_eq_false_of_lookupField_none (fs : List (String × JValue)) (k : String)
    (h : JValue.lookupField fs k = none) : fs.any (fun p => p.1 = k) = false := by
  induction fs with
  | nil => rfl
  | cons p rest ih =>
    obtain ⟨k1, v1⟩ := p
    by_cases hk : k1 = k
    · simp [JValue.lookupField, hk] at h
    · simp only [JValue.lookupField, if_neg hk] at h
      simp [hk, ih h]

theorem lookupField_some_of_any (fs : List (String × JValue)) (k : String)
    (h : fs.any (fun p => p.1 = k) = true) :
    ∃ v, JValue.lookupField fs k = some v := by
  cases hl : JValue.lookupField fs k with
  | some v => exact ⟨v, rfl⟩
  | none =>
    rw [any_eq_false_of_lookupField_none fs k hl] at h
    exact absurd h (by simp)

/-- On a dict, `k in x` is exactly the key-presence test. -/
theorem pyContains_obj (x : JValue) (k : String) (hobj : x.isObj = true) :
    x.pyContains k = Except.ok (x.hasKey k) := by
  cases x <;> simp_all [JValue.isObj, JValue.pyContains, JValue.hasKey]

/-- Indexing a dict that has the key succeeds. -/
theorem pyIndex_of_hasKey (x : JValue) (k : String) (hobj : x.isObj = true)
    (h : x.hasKey k = true) : ∃ v, x.pyIndex k = Except.ok v := by
  cases x <;> simp_all [JValue.isObj, JValue.hasKey]
  obtain ⟨v, hv⟩ := lookupField_some_of_any _ k (by simpa using h)
  exact ⟨v, by simp [JValue.pyIndex, hv]⟩

/-- Indexing a dict that lacks the key raises `KeyError`. -/
theorem pyIndex_keyError (x : JValue) (k : String) (hobj : x.isObj = true)
    (h : x.hasKey k = false) : x.pyIndex k = Except.error (PyErr.keyError k) := by
  cases x <;> simp_all [JValue.isObj, JValue.hasKey]
  have := lookupField_eq_none_of_any_false _ k (by simpa using h)
  simp [JValue.pyIndex, this]

/-- Unwrapping a list of dicts in which some element lacks the `item` key
raises `KeyError` for that key. -/
theorem unwrapItems_keyError (l : List JValue)
    (hobj : ∀ x ∈ l, x.isObj = true)
    (h : ∃ z ∈ l, z.hasKey "item" = false) :
    unwrapItems l = Except.error (PyErr.keyError "item") := by
  induction l with
  | nil => simp at h
  | cons y ys ih =>
    by_cases hy : y.hasKey "item" = true
    · obtain ⟨v, hv⟩ := pyIndex_of_hasKey y "item" (hobj y (by simp)) hy
      have hz : ∃ z ∈ ys, z.hasKey "item" = false := by
        obtain ⟨z, hzmem, hzfalse⟩ := h
        rcases List.mem_cons.mp hzmem with rfl | hzys
        · rw [hy] at hzfalse
          exact absurd hzfalse (by simp)
        · exact ⟨z, hzys, hzfalse⟩
      have hrec := ih (fun x hx => hobj x (List.mem_cons_of_mem _ hx)) hz
      simp [unwrapItems, hv, hrec]
    · have hy' : y.hasKey "item" = false := by simpa using hy
      have hke := pyIndex_keyError y "item" (hobj y (by simp)) hy'
      simp [unwrapItems, hke]

/-- Reduction of the parsing stage when the body carries an `items` list:
after the optional filter, an empty list maps to an empty sequence, and
otherwise the first element's `item` membership picks the branch. -/
theorem map_request_json_arr (j : JValue) (ret : String)
    (fil : Option (JValue → Bool)) (p : JValue → Except PyErr Model)
    (xs : List JValue)
    (hsel : selectParse ret = Except.ok (some p))
    (hitems : j.pyGet "items" = Except.ok (JValue.arr xs)) :
    map_request_json j ret fil =
      (match postFilter fil xs with
       | [] => Except.ok (MapResult.many [])
       | x :: rest =>
         match x.pyContains "item" with
         | Except.error e => Except.error e
         | Except.ok true =>
           (unwrapItems (x :: rest) >>= fun us =>
             parseList (some p) us).map MapResult.many
         | Except.ok false =>
           (parseList (some p) (x :: rest)).map MapResult.many) := by
  unfold map_request_json
  rw [hsel, hitems]
  simp only []
  rw [applyFilter_arr]
  simp only []
  cases hys : postFilter fil xs with
  | nil => simp [JValue.isNull, JValue.asList, parseList]
  | cons x rest =>
    cases hpc : x.pyContains "item" with
    | error e => simp [JValue.isNull, JValue.asList, hpc]
    | ok b =>
      cases b
      · cases hpl : parseList (some p) (x :: rest) <;>
          simp [JValue.isNull, JValue.asList, hpc, hpl, Except.map]
      · cases hun : unwrapItems (x :: rest) with
        | error e =>
          simp [JValue.isNull, JValue.asList, hpc, hun, Except.map,
            Bind.bind, Except.bind]
        | ok us =>
          cases hpl : parseList (some p) us <;>
            simp [JValue.isNull, JValue.asList, hpc, hun, hpl, Except.map,
              Bind.bind, Except.bind]

/-- C1: with a selected (non-`user`) normalizer, a body without `items` is
normalized once into a single model; a body with an `items` list is first
filtered, then — when every element is wrapped one level in an `item`
field — unwrapped element by element before normalizing, or normalized
directly when no element carries the wrapper, in both cases preserving the
original order of the sequence. -/
theorem C1_map_request_dispatch (j : JValue) (ret : String)
    (fil : Option (JValue → Bool)) (p : JValue → Except PyErr Model)
    (hsel : selectParse ret = Except.ok (some p)) :
    (j.pyGet "items" = Except.ok JValue.null →
       map_request_json j ret fil = (p j).map MapResult.single) ∧
    (∀ xs, j.pyGet "items" = Except.ok (JValue.arr xs) →
       (∀ x ∈ postFilter fil xs, x.isObj = true) →
       ((∀ x ∈ postFilter fil xs, x.hasKey "item" = true) →
          map_request_json j ret fil =
            (unwrapItems (postFilter fil xs) >>= fun us =>
              parseList (some p) us).map MapResult.many) ∧
       ((∀ x ∈ postFilter fil xs, x.hasKey "item" = false) →
          map_request_json j ret fil =
            (parseList (some p) (postFilter fil xs)).map MapResult.many)) := by
  constructor
  · intro hitems
    unfold map_request_json
    rw [hsel, hitems]
    simp only []
    rw [applyFilter_null]
    cases hp : p j <;> simp [JValue.isNull, callParse, hp, Except.map]
  · intro xs hitems hobj
    rw [map_request_json_arr j ret fil p xs hsel hitems]
    constructor
    · intro hall
      cases hys : postFilter fil xs with
      | nil => simp [unwrapItems, parseList, Except.map, Bind.bind, Except.bind]
      | cons x rest =>
        rw [hys] at hall hobj
        have hx := pyContains_obj x "item" (hobj x (by simp))
        rw [hall x (by simp)] at hx
        simp [hx]
    · intro hall
      cases hys : postFilter fil xs with
      | nil => simp [unwrapItems, parseList, Except.map, Bind.bind, Except.bind]
      | cons x rest =>
        rw [hys] at hall hobj
        have hx := pyContains_obj x "item" (hobj x (by simp))
        rw [hall x (by simp)] at hx
        simp [hx]

/-- C1 witness: a singleton body is normalized once; a wrapped two-element
items list is unwrapped and normalized in order. -/
theorem C1_map_request_dispatch_witness :
    map_request_json (JValue.obj [("id", JValue.num 7), ("name", JValue.str "B")])
      "artists" none =
      Except.ok (MapResult.single (Model.artist
        { id := JValue.num 7, name := JValue.str "B" })) ∧
    map_request_json (JValue.obj [("items", JValue.arr
      [JValue.obj [("item", JValue.obj [("id", JValue.num 1), ("name", JValue.str "X")])],
       JValue.obj [("item", JValue.obj [("id", JValue.num 2), ("name", JValue.str "Y")])]])])
      "artists" none =
      Except.ok (MapResult.many
        [Model.artist { id := JValue.num 1, name := JValue.str "X" },
         Model.artist { id := JValue.num 2, name := JValue.str "Y" }]) := by
  have h1 := (C1_map_request_dispatch
    (JValue.obj [("id", JValue.num 7), ("name", JValue.str "B")])
    "artists" none parseArtistM rfl).1 rfl
  have h2 := ((C1_map_request_dispatch
    (JValue.obj [("items", JValue.arr
      [JValue.obj [("item", JValue.obj [("id", JValue.num 1), ("name", JValue.str "X")])],
       JValue.obj [("item", JValue.obj [("id", JValue.num 2), ("name", JValue.str "Y")])]])])
    "artists" none parseArtistM rfl).2 _ rfl (by decide)).1 (by decide)
  rw [h1, h2]
  exact ⟨rfl, rfl⟩

/-- C10: the unwrap decision of `_map_request` inspects only the first
element of the post-filter items list: an empty list yields an empty
sequence; when the first element carries `item`, every element is
unwrapped and one lacking it raises a `KeyError`; when the first element
lacks `item`, no element is unwrapped even if later elements carry it. -/
theorem C10_first_element_decides (j : JValue) (ret : String)
    (fil : Option (JValue → Bool)) (p : JValue → Except PyErr Model)
    (xs : List JValue)
    (hsel : selectParse ret = Except.ok (some p))
    (hitems : j.pyGet "items" = Except.ok (JValue.arr xs)) :
    (postFilter fil xs = [] →
       map_request_json j ret fil = Except.ok (MapResult.many [])) ∧
    (∀ y ys, postFilter fil xs = y :: ys →
       (∀ x ∈ y :: ys, x.isObj = true) →
       ((y.hasKey "item" = true → (∃ z ∈ y :: ys, z.hasKey "item" = false) →
           map_request_json j ret fil = Except.error (PyErr.keyError "item")) ∧
        (y.hasKey "item" = false →
           map_request_json j ret fil =
             (parseList (some p) (y :: ys)).map MapResult.many))) := by
  rw [map_request_json_arr j ret fil p xs hsel hitems]
  constructor
  · intro hys
    rw [hys]
  · intro y ys hys hobj
    rw [hys]
    constructor
    · intro hy hz
      have hcy := pyContains_obj y "item" (hobj y (by simp))
      rw [hy] at hcy
      have hun := unwrapItems_keyError (y :: ys) hobj hz
      simp [hcy, hun, Except.map, Bind.bind, Except.bind]
    · intro hy
      have hcy := pyContains_obj y "item" (hobj y (by simp))
      rw [hy] at hcy
      simp [hcy]

/-- C10 witness: with a wrapped first element and a bare second element the
parse raises `KeyError`; with a bare first element no unwrapping happens
even though the second element carries `item`; an empty items list gives an
empty sequence. -/
theorem C10_first_element_decides_witness :
    map_request_json (JValue.obj [("items", JValue.arr
      [JValue.obj [("item", JValue.obj [("id", JValue.num 1), ("name", JValue.str "X")])],
       JValue.obj [("id", JValue.num 2), ("name", JValue.str "Y")]])]) "artists" none =
      Except.error (PyErr.keyError "item") ∧
    map_request_json (JValue.obj [("items", JValue.arr
      [JValue.obj [("id", JValue.num 2), ("name", JValue.str "Y")],
       JValue.obj [("item", JValue.obj [("id", JValue.num 1), ("name", JValue.str "X")])]])])
      "artists" none =
      Except.error (PyErr.keyError "id") ∧
    map_request_json (JValue.obj [("items", JValue.arr [])]) "artists" none =
      Except.ok (MapResult.many []) := by
  refine ⟨?_, ?_, ?_⟩
  · exact (((C10_first_element_decides
      (JValue.obj [("items", JValue.arr
        [JValue.obj [("item", JValue.obj [("id", JValue.num 1), ("name", JValue.str "X")])],
         JValue.obj [("id", JValue.num 2), ("name", JValue.str "Y")]])])
      "artists" none parseArtistM
      [JValue.obj [("item", JValue.obj [("id", JValue.num 1), ("name", JValue.str "X")])],
       JValue.obj [("id", JValue.num 2), ("name", JValue.str "Y")]]
      rfl rfl).2
      (JValue.obj [("item", JValue.obj [("id", JValue.num 1), ("name", JValue.str "X")])])
      [JValue.obj [("id", JValue.num 2), ("name", JValue.str "Y")]]
      rfl (by decide)).1 (by decide) (by decide))
  · have h := (((C10_first_element_decides
      (JValue.obj [("items", JValue.arr
        [JValue.obj [("id", JValue.num 2), ("name", JValue.str "Y")],
         JValue.obj [("item", JValue.obj [("id", JValue.num 1), ("name", JValue.str "X")])]])])
      "artists" none parseArtistM
      [JValue.obj [("id", JValue.num 2), ("name", JValue.str "Y")],
       JValue.obj [("item", JValue.obj [("id", JValue.num 1), ("name", JValue.str "X")])]]
      rfl rfl).2
      (JValue.obj [("id", JValue.num 2), ("name", JValue.str "Y")])
      [JValue.obj [("item", JValue.obj [("id", JValue.num 1), ("name", JValue.str "X")])]]
      rfl (by decide)).2 (by decide))
    rw [h]
    rfl
  · exact (C10_first_element_decides
      (JValue.obj [("items", JValue.arr [])]) "artists" none parseArtistM []
      rfl rfl).1 rfl

end Wimpy
